import Mathlib

/-!
Shallow embedding of the fleet-management core:
`src/models/robot.py`, `src/models/nav_graph.py`,
`src/controllers/traffic_manager.py`, `src/controllers/fleet_manager.py`.

Python dictionaries are modelled as association lists (`Dict`): lookup
returns the first binding, assignment (`d[k] = v`) replaces the first
binding in place or appends, `del d[k]` removes the binding.  A genuine
Python dict never holds two bindings for one key, so on such states the
operations below agree with Python's; key uniqueness itself is proved as
an invariant of the traffic-manager states reachable by the program.

Floats are modelled as rationals.  The Euclidean norm
(`np.linalg.norm`) is modelled by `qnorm`, an exact rational square
root on perfect squares; every concrete evaluation below uses inputs
whose squared norm is a perfect rational square, so `qnorm` agrees with
the float computation there.  Wall-clock timestamps
(`time.time()`, `last_update_time`) and the robot's display colour do
not influence any modelled behaviour and are passed in or omitted.
-/

namespace FleetSim

abbrev RobotId := String

/-- Association-list model of a Python dict. -/
abbrev Dict (κ α : Type) := List (κ × α)

/-- Python `d[k]` / `k in d`: first binding for `k`, if any. -/
def dlookup {κ α : Type} [DecidableEq κ] : Dict κ α → κ → Option α
  | [], _ => none
  | (k', v) :: rest, k => if k' = k then some v else dlookup rest k

/-- Python `d[k] = v`: replace the first binding in place, else append
(insertion order is preserved, as for Python dicts). -/
def dinsert {κ α : Type} [DecidableEq κ] : Dict κ α → κ → α → Dict κ α
  | [], k, v => [(k, v)]
  | (k', v') :: rest, k, v =>
      if k' = k then (k, v) :: rest else (k', v') :: dinsert rest k v

/-- Python `del d[k]` (for `k` present; identity otherwise).  Removes
every binding for `k`; on states with no duplicate keys — every state a
Python dict can be in — this is exactly the deletion of the one binding. -/
def derase {κ α : Type} [DecidableEq κ] (d : Dict κ α) (k : κ) : Dict κ α :=
  d.filter (fun kv => kv.1 ≠ k)

/-- Key uniqueness: what Python dicts guarantee by construction. -/
def dwf {κ α : Type} (d : Dict κ α) : Prop := (d.map Prod.fst).Nodup

/-- The five robot states of `Robot.STATES`. -/
inductive RState where
  | idle | moving | waiting | charging | completed
deriving DecidableEq, Repr

/-- `Robot` (src/models/robot.py).  `color`, `last_update_time` and
`animation` never influence the modelled behaviour and are omitted. -/
structure Robot where
  id : RobotId
  position : ℚ × ℚ
  current_vertex : Option Nat
  destination : Option Nat
  path : List Nat
  next_vertex : Option Nat
  state : RState
  speed : ℚ
  battery : ℚ
deriving DecidableEq, Repr

/-- `Robot.__init__(robot_id, position, current_vertex)`. -/
def Robot.init (rid : RobotId) (pos : ℚ × ℚ) (cv : Option Nat) : Robot :=
  { id := rid, position := pos, current_vertex := cv, destination := none,
    path := [], next_vertex := none, state := .idle, speed := 1/20,
    battery := 100 }

/-- `Robot.set_destination(destination, path)`. -/
def Robot.set_destination (r : Robot) (dest : Nat) (path : List Nat) : Robot :=
  let r := { r with destination := some dest, path := path }
  match path with
  | _ :: b :: _ => { r with next_vertex := some b, state := .moving }
  | [_] => { r with state := .completed }
  | [] => { r with state := .idle }

/-- `Robot.start_charging()`. -/
def Robot.start_charging (r : Robot) : Robot :=
  { r with state := .charging }

/-- `Robot.cancel_task()`. -/
def Robot.cancel_task (r : Robot) : Robot :=
  { r with destination := none, path := [], next_vertex := none,
           state := .idle }

/-- The info dict returned by `Robot.update`; an `Option` field is
`none` exactly when the corresponding key is absent from the dict. -/
structure UpdateInfo where
  state : RState
  battery : Option ℚ
  position : Option (ℚ × ℚ)
  current_vertex : Option Nat
deriving DecidableEq, Repr

/-- `lane in occupancy and occupancy[lane] != self.id`, for
`lane = (current_vertex, next_vertex)`.  A lane tuple containing `None`
is never a key of the occupancy dict (keys are made of vertex ids). -/
def laneBlocked (occ : Dict (Nat × Nat) RobotId) (cv nv : Option Nat)
    (rid : RobotId) : Bool :=
  match cv, nv with
  | some a, some b =>
      match dlookup occ (a, b) with
      | some holder => holder ≠ rid
      | none => false
  | _, _ => false

/-- Rational square root, exact on ratios of perfect squares; models
`np.linalg.norm`'s float square root on the inputs used here. -/
def ratSqrt (q : ℚ) : ℚ :=
  (Nat.sqrt q.num.toNat : ℚ) / (Nat.sqrt q.den : ℚ)

/-- `np.linalg.norm(next_pos - current_pos)`. -/
def qnorm (v : ℚ × ℚ) : ℚ := ratSqrt (v.1 * v.1 + v.2 * v.2)

/-- The tail of `Robot.update`'s MOVING branch, after the
`not self.next_vertex` guard: lane check, then motion toward
`vertex_positions[nv]`.  `nv` is the (non-`None`) current value of
`self.next_vertex`. -/
def Robot.movingCore (r : Robot) (nv : Nat) (dt : ℚ)
    (vpos : Nat → ℚ × ℚ) (occ : Dict (Nat × Nat) RobotId) :
    Robot × UpdateInfo :=
  if laneBlocked occ r.current_vertex (some nv) r.id then
    let r := { r with state := .waiting }
    (r, { state := r.state, battery := none, position := none,
          current_vertex := none })
  else
    let cp := r.position
    let np := vpos nv
    let d := qnorm (np.1 - cp.1, np.2 - cp.2)
    if d < r.speed * dt then
      -- reached the next vertex: snap, consume the path head,
      -- recompute next_vertex from the new path head
      let r := { r with position := np, current_vertex := some nv }
      let r := { r with path := r.path.tail }
      let r :=
        match r.path with
        | p0 :: _ => { r with next_vertex := some p0 }
        | [] => { r with next_vertex := none, state := .completed }
      (r, { state := r.state, battery := none,
            position := some r.position,
            current_vertex := r.current_vertex })
    else
      let r :=
        if 0 < d then
          { r with position :=
              (cp.1 + (np.1 - cp.1) / d * (r.speed * dt),
               cp.2 + (np.2 - cp.2) / d * (r.speed * dt)) }
        else r
      (r, { state := r.state, battery := none,
            position := some r.position, current_vertex := none })

/-- `Robot.update(dt, vertex_positions, current_lane_occupancy)`.
`not self.next_vertex` is Python truthiness: `None` and `0` are both
falsy.  `self.path.pop(0)` on an empty path would raise `IndexError`
in Python; here consuming an empty path leaves it empty — no theorem
below depends on that unreachable case. -/
def Robot.update (r0 : Robot) (dt : ℚ) (vpos : Nat → ℚ × ℚ)
    (occ : Dict (Nat × Nat) RobotId) : Robot × UpdateInfo :=
  let r := { r0 with battery := max 0 (r0.battery - 1/100 * dt) }
  if r.state = .idle ∨ r.state = .completed then
    (r, { state := r.state, battery := none, position := none,
          current_vertex := none })
  else if r.state = .charging then
    let r := { r with battery := min 100 (r.battery + 1/10 * dt) }
    let r := if 100 ≤ r.battery then { r with state := .idle } else r
    (r, { state := r.state, battery := some r.battery, position := none,
          current_vertex := none })
  else if r.state = .waiting then
    let r :=
      if laneBlocked occ r.current_vertex r.next_vertex r.id then r
      else { r with state := .moving }
    (r, { state := r.state, battery := none, position := none,
          current_vertex := none })
  else
    match r.next_vertex with
    | none | some 0 =>
        -- `if not self.next_vertex:` taken (None or 0)
        match r.path with
        | [] =>
            let r := { r with state := .completed }
            (r, { state := r.state, battery := none, position := none,
                  current_vertex := none })
        | _ :: [] =>
            let r := { r with path := [], state := .completed }
            (r, { state := r.state, battery := none, position := none,
                  current_vertex := none })
        | _ :: b :: rest =>
            Robot.movingCore
              { r with path := b :: rest, next_vertex := some b }
              b dt vpos occ
    | some (v + 1) => Robot.movingCore r (v + 1) dt vpos occ

/-- `TrafficManager` (src/controllers/traffic_manager.py); the logger
performs no state change on the occupancy tables. -/
structure TrafficManager where
  lane_occupancy : Dict (Nat × Nat) RobotId
  vertex_occupancy : Dict Nat RobotId
deriving DecidableEq, Repr

/-- `TrafficManager.__init__`: both tables empty. -/
def TrafficManager.init : TrafficManager :=
  { lane_occupancy := [], vertex_occupancy := [] }

/-- `TrafficManager.register_lane_usage(robot_id, start, end)`. -/
def TrafficManager.register_lane_usage (tm : TrafficManager)
    (rid : RobotId) (s e : Nat) : Bool × TrafficManager :=
  match dlookup tm.lane_occupancy (s, e) with
  | some holder =>
      if holder = rid then
        (true,
         { lane_occupancy := dinsert tm.lane_occupancy (s, e) rid,
           vertex_occupancy := dinsert tm.vertex_occupancy s rid })
      else (false, tm)
  | none =>
      (true,
       { lane_occupancy := dinsert tm.lane_occupancy (s, e) rid,
         vertex_occupancy := dinsert tm.vertex_occupancy s rid })

/-- `TrafficManager.release_lane(robot_id, start, end)`. -/
def TrafficManager.release_lane (tm : TrafficManager)
    (rid : RobotId) (s e : Nat) : Bool × TrafficManager :=
  if dlookup tm.lane_occupancy (s, e) = some rid then
    let tm := { tm with lane_occupancy := derase tm.lane_occupancy (s, e) }
    let tm :=
      if dlookup tm.vertex_occupancy s = some rid then
        { tm with vertex_occupancy := derase tm.vertex_occupancy s }
      else tm
    (true, tm)
  else (false, tm)

/-- `TrafficManager.is_lane_free(start, end, robot_id)`. -/
def TrafficManager.is_lane_free (tm : TrafficManager) (s e : Nat)
    (rid : Option RobotId) : Bool :=
  match dlookup tm.lane_occupancy (s, e) with
  | none => true
  | some holder =>
      match rid with
      | some r => holder = r
      | none => false

/-- `TrafficManager.reset()`. -/
def TrafficManager.reset (_tm : TrafficManager) : TrafficManager :=
  { lane_occupancy := [], vertex_occupancy := [] }

/-- Model of `NavGraph` (src/models/nav_graph.py) after `load_graph`:
vertex positions, the charger list, and `get_path`.  `get_path`
delegates to `networkx.shortest_path` (an external library), so the
path query is an abstract function here: `path a b = none` models the
`NetworkXNoPath` case (`get_path` returns `None`), `some p` a returned
path.  For distinct reachable endpoints `networkx` returns the vertex
sequence from source to target inclusive, so such a `p` has at least
two elements; theorems needing that state it as a hypothesis. -/
structure NavGraphM where
  pos : Nat → ℚ × ℚ
  chargers : List Nat
  path : Nat → Nat → Option (List Nat)

/-- Task record stored in `FleetManager.tasks`. -/
structure Task where
  destination : Nat
  path : List Nat
  start_time : ℚ
deriving DecidableEq, Repr

/-- `FleetManager` (src/controllers/fleet_manager.py): the robot
registry and task records, in insertion order.  The logger performs no
state change. -/
structure FleetManager where
  robots : Dict RobotId Robot
  tasks : Dict RobotId Task
deriving DecidableEq, Repr

/-- `FleetManager.__init__`: empty registry. -/
def FleetManager.init : FleetManager := { robots := [], tasks := [] }

/-- `FleetManager.add_robot(robot)`: unconditional
`self.robots[robot.id] = robot`. -/
def FleetManager.add_robot (fm : FleetManager) (r : Robot) : FleetManager :=
  { fm with robots := dinsert fm.robots r.id r }

/-- `FleetManager.remove_robot(robot_id)`. -/
def FleetManager.remove_robot (fm : FleetManager) (rid : RobotId) :
    Bool × FleetManager :=
  match dlookup fm.robots rid with
  | some _ =>
      (true, { robots := derase fm.robots rid, tasks := derase fm.tasks rid })
  | none => (false, fm)

/-- `FleetManager.assign_task(robot_id, destination_vertex)`.  `now`
stands for `time.time()` at the call.  Result `none` models the
uncaught `networkx` exception raised when `get_path` is queried with a
source that is not a graph node (`robot.current_vertex is None`); every
other outcome is `some (returned bool, new state)`. -/
def FleetManager.assign_task (fm : FleetManager) (g : NavGraphM)
    (rid : RobotId) (dest : Nat) (now : ℚ) :
    Option (Bool × FleetManager) :=
  match dlookup fm.robots rid with
  | none => some (false, fm)
  | some robot =>
      if robot.current_vertex = some dest then some (true, fm)
      else
        match robot.current_vertex with
        | none => none
        | some cv =>
            match g.path cv dest with
            | none => some (false, fm)
            | some [] => some (false, fm)  -- `if not path` also catches []
            | some (p0 :: ps) =>
                some (true,
                  { robots := dinsert fm.robots rid
                      (robot.set_destination dest (p0 :: ps)),
                    tasks := dinsert fm.tasks rid
                      { destination := dest, path := p0 :: ps,
                        start_time := now } })

/-- `FleetManager.cancel_task(robot_id)`. -/
def FleetManager.cancel_task (fm : FleetManager) (rid : RobotId) :
    Bool × FleetManager :=
  match dlookup fm.robots rid with
  | none => (false, fm)
  | some robot =>
      (true,
       { robots := dinsert fm.robots rid robot.cancel_task,
         tasks := derase fm.tasks rid })

/-- The vertex-change block of `FleetManager.update_robots`'s loop
body: when the robot's update reported a changed current vertex that
equals its destination, is a charger and the battery is below 50, call
`start_charging`.  `pre_vertex` is the vertex captured before the
update, `r1`/`info` the robot and info dict after it. -/
def chargeCheck (g : NavGraphM) (pre_vertex : Option Nat) (r1 : Robot)
    (info : UpdateInfo) : Robot :=
  match info.current_vertex with
  | some v =>
      if some v ≠ pre_vertex then
        -- destination reached?
        if r1.destination = some v then
          -- charging station?
          if v ∈ g.chargers ∧ r1.battery < 50 then r1.start_charging
          else r1
        else r1
      else r1
  | none => r1

/-- The re-registration step of the loop body: register the robot's
current/next lane when both vertices are set (`robot_id` is the
registry key `k`). -/
def registerCurrentLane (tm : TrafficManager) (k : RobotId) (r : Robot) :
    TrafficManager :=
  match r.current_vertex, r.next_vertex with
  | some cv, some nv => (tm.register_lane_usage k cv nv).2
  | _, _ => tm

/-- One iteration of `FleetManager.update_robots`'s loop for robot
`(k, r)`: update the robot, apply the charging check, then re-register
the robot's current/next lane.  The `lane_occupancy` snapshot handed
to `Robot.update` is `get_lane_occupancy()`'s return — the live dict,
so it reflects registrations by earlier robots in the same pass. -/
def update_one (g : NavGraphM) (dt : ℚ) (tm : TrafficManager)
    (k : RobotId) (r : Robot) : TrafficManager × Robot × UpdateInfo :=
  let u := r.update dt g.pos tm.lane_occupancy
  let r2 := chargeCheck g r.current_vertex u.1 u.2
  (registerCurrentLane tm k r2, r2, u.2)

/-- `FleetManager.update_robots(dt, traffic_manager)`: one dispatcher
tick over the registry in iteration order. -/
def FleetManager.update_robots (fm : FleetManager) (g : NavGraphM)
    (dt : ℚ) (tm : TrafficManager) :
    FleetManager × TrafficManager × Dict RobotId UpdateInfo :=
  let step := fun (acc : Dict RobotId Robot × TrafficManager ×
                          Dict RobotId UpdateInfo)
                  (kv : RobotId × Robot) =>
    let res := update_one g dt acc.2.1 kv.1 kv.2
    (acc.1 ++ [(kv.1, res.2.1)], res.1, dinsert acc.2.2 kv.1 res.2.2)
  let res := fm.robots.foldl step ([], tm, [])
  ({ fm with robots := res.1 }, res.2.1, res.2.2)

/-- The two managers side by side, as `main.py` holds them.  The GUI
calls `fleet_manager.assign_task` without touching the traffic
manager; `System.assign_task` mirrors that call shape. -/
structure System where
  fm : FleetManager
  tm : TrafficManager

/-- Task assignment as issued by the presentation layer: only the
fleet manager is consulted. -/
def System.assign_task (s : System) (g : NavGraphM) (rid : RobotId)
    (dest : Nat) (now : ℚ) : Option (Bool × System) :=
  match s.fm.assign_task g rid dest now with
  | none => none
  | some (b, fm2) => some (b, { s with fm := fm2 })

/-- One occupancy-table step by an operation the dispatcher performs:
a `register_lane_usage`, a `release_lane`, a `reset`, or a whole
dispatcher tick (whose lane re-registrations go through
`register_lane_usage`). -/
inductive TMStep : TrafficManager → TrafficManager → Prop where
  | register (tm : TrafficManager) (rid : RobotId) (s e : Nat) :
      TMStep tm (tm.register_lane_usage rid s e).2
  | release (tm : TrafficManager) (rid : RobotId) (s e : Nat) :
      TMStep tm (tm.release_lane rid s e).2
  | reset (tm : TrafficManager) : TMStep tm tm.reset
  | tick (tm : TrafficManager) (fm : FleetManager) (g : NavGraphM)
      (dt : ℚ) : TMStep tm (fm.update_robots g dt tm).2.1

/-- Occupancy-table states reachable from the initial (empty) state by
the dispatcher's operations. -/
inductive TMReach : TrafficManager → Prop where
  | init : TMReach TrafficManager.init
  | step {tm tm' : TrafficManager} : TMReach tm → TMStep tm tm' →
      TMReach tm'

/-! ### Dictionary lemmas -/

lemma dlookup_dinsert_self {κ α : Type} [DecidableEq κ]
    (d : Dict κ α) (k : κ) (v : α) :
    dlookup (dinsert d k v) k = some v := by
  induction d with
  | nil => simp [dinsert, dlookup]
  | cons kv rest ih =>
      obtain ⟨k', v'⟩ := kv
      by_cases h : k' = k
      · simp [dinsert, dlookup, h]
      · simp [dinsert, dlookup, h, ih]

lemma dlookup_dinsert_ne {κ α : Type} [DecidableEq κ]
    (d : Dict κ α) (k k' : κ) (v : α) (h : k' ≠ k) :
    dlookup (dinsert d k v) k' = dlookup d k' := by
  have h' : ¬ k = k' := fun hkk => h hkk.symm
  induction d with
  | nil => simp [dinsert, dlookup, h']
  | cons kv rest ih =>
      obtain ⟨k₀, v₀⟩ := kv
      by_cases h₀ : k₀ = k
      · subst h₀
        simp [dinsert, dlookup, h']
      · simp only [dinsert, if_neg h₀, dlookup]
        by_cases h₁ : k₀ = k'
        · simp [h₁]
        · simp [h₁, ih]

lemma dinsert_self_of_dlookup {κ α : Type} [DecidableEq κ]
    (d : Dict κ α) (k : κ) (v : α) (h : dlookup d k = some v) :
    dinsert d k v = d := by
  induction d with
  | nil => simp [dlookup] at h
  | cons kv rest ih =>
      obtain ⟨k', v'⟩ := kv
      by_cases hk : k' = k
      · subst hk
        have hv : v' = v := by simpa [dlookup] using h
        simp [dinsert, hv]
      · simp only [dlookup, if_neg hk] at h
        simp [dinsert, hk, ih h]

lemma dlookup_derase_self {κ α : Type} [DecidableEq κ]
    (d : Dict κ α) (k : κ) :
    dlookup (derase d k) k = none := by
  induction d with
  | nil => simp [derase, dlookup]
  | cons kv rest ih =>
      obtain ⟨k', v'⟩ := kv
      by_cases h : k' = k
      · simpa [derase, h] using ih
      · simpa [derase, dlookup, h] using ih

lemma mem_keys_dinsert {κ α : Type} [DecidableEq κ]
    (d : Dict κ α) (k : κ) (v : α) (a : κ) :
    a ∈ (dinsert d k v).map Prod.fst → a ∈ d.map Prod.fst ∨ a = k := by
  induction d with
  | nil =>
      intro h
      simpa [dinsert] using h
  | cons kv rest ih =>
      obtain ⟨k', v'⟩ := kv
      intro h
      by_cases hk : k' = k
      · subst hk
        simp only [dinsert, if_true, List.map_cons, List.mem_cons] at h
        simp only [List.map_cons, List.mem_cons]
        tauto
      · simp only [dinsert, if_neg hk, List.map_cons, List.mem_cons] at h
        simp only [List.map_cons, List.mem_cons]
        rcases h with h1 | h1
        · tauto
        · rcases ih h1 with h2 | h2 <;> tauto

lemma dwf_nil {κ α : Type} : dwf ([] : Dict κ α) := by
  simp [dwf]

lemma dwf_dinsert {κ α : Type} [DecidableEq κ]
    (d : Dict κ α) (k : κ) (v : α) (h : dwf d) : dwf (dinsert d k v) := by
  induction d with
  | nil => simp [dwf, dinsert]
  | cons kv rest ih =>
      obtain ⟨k', v'⟩ := kv
      simp only [dwf, List.map_cons, List.nodup_cons] at h
      by_cases hk : k' = k
      · subst hk
        simpa [dwf, dinsert] using h
      · have hrest := ih h.2
        simp only [dwf, dinsert, if_neg hk, List.map_cons, List.nodup_cons]
        refine ⟨fun hmem => ?_, hrest⟩
        rcases mem_keys_dinsert rest k v k' hmem with h' | h'
        · exact h.1 h'
        · exact hk h'

lemma dwf_derase {κ α : Type} [DecidableEq κ]
    (d : Dict κ α) (k : κ) (h : dwf d) : dwf (derase d k) := by
  have hsub : List.Sublist ((derase d k).map Prod.fst) (d.map Prod.fst) :=
    List.Sublist.map Prod.fst (List.filter_sublist d)
  exact List.Nodup.sublist hsub h

lemma dwf_mem_unique {κ α : Type} (d : Dict κ α) (h : dwf d)
    (k : κ) (a b : α) (ha : (k, a) ∈ d) (hb : (k, b) ∈ d) : a = b := by
  induction d with
  | nil => cases ha
  | cons kv rest ih =>
      obtain ⟨k₀, v₀⟩ := kv
      simp only [dwf, List.map_cons, List.nodup_cons] at h
      rcases List.mem_cons.mp ha with ha' | ha' <;>
        rcases List.mem_cons.mp hb with hb' | hb'
      · rw [← ha'] at hb'
        exact congrArg Prod.snd hb'.symm
      · exfalso
        apply h.1
        have hk : k₀ = k := (congrArg Prod.fst ha').symm
        rw [hk]
        exact List.mem_map_of_mem Prod.fst hb'
      · exfalso
        apply h.1
        have hk : k₀ = k := (congrArg Prod.fst hb').symm
        rw [hk]
        exact List.mem_map_of_mem Prod.fst ha'
      · exact ih h.2 ha' hb'

/-! ### Occupancy-table invariants -/

/-- Both occupancy tables have unique keys (what Python dicts
guarantee by construction). -/
def TMWF (tm : TrafficManager) : Prop :=
  dwf tm.lane_occupancy ∧ dwf tm.vertex_occupancy

lemma register_lane_usage_wf (tm : TrafficManager) (rid : RobotId)
    (s e : Nat) (h : TMWF tm) : TMWF (tm.register_lane_usage rid s e).2 := by
  unfold TrafficManager.register_lane_usage
  cases hl : dlookup tm.lane_occupancy (s, e) with
  | none =>
      exact ⟨dwf_dinsert _ _ _ h.1, dwf_dinsert _ _ _ h.2⟩
  | some holder =>
      by_cases hh : holder = rid
      · simp only [hh, if_pos rfl]
        exact ⟨dwf_dinsert _ _ _ h.1, dwf_dinsert _ _ _ h.2⟩
      · simp only [if_neg hh]
        exact h

lemma release_lane_wf (tm : TrafficManager) (rid : RobotId)
    (s e : Nat) (h : TMWF tm) : TMWF (tm.release_lane rid s e).2 := by
  unfold TrafficManager.release_lane
  by_cases hl : dlookup tm.lane_occupancy (s, e) = some rid
  · simp only [hl, if_pos rfl]
    by_cases hv : dlookup tm.vertex_occupancy s = some rid
    · simp only [hv, if_pos rfl]
      exact ⟨dwf_derase _ _ h.1, dwf_derase _ _ h.2⟩
    · simp only [if_neg hv]
      exact ⟨dwf_derase _ _ h.1, h.2⟩
  · simp only [if_neg hl]
    exact h

lemma reset_wf (tm : TrafficManager) : TMWF tm.reset :=
  ⟨dwf_nil, dwf_nil⟩

lemma init_wf : TMWF TrafficManager.init :=
  ⟨dwf_nil, dwf_nil⟩

lemma registerCurrentLane_wf (tm : TrafficManager) (k : RobotId)
    (r : Robot) (h : TMWF tm) : TMWF (registerCurrentLane tm k r) := by
  unfold registerCurrentLane
  cases r.current_vertex with
  | none => exact h
  | some cv =>
      cases r.next_vertex with
      | none => exact h
      | some nv => exact register_lane_usage_wf tm k cv nv h

lemma update_one_wf (g : NavGraphM) (dt : ℚ) (tm : TrafficManager)
    (k : RobotId) (r : Robot) (h : TMWF tm) :
    TMWF (update_one g dt tm k r).1 :=
  registerCurrentLane_wf tm k _ h

lemma update_robots_wf (fm : FleetManager) (g : NavGraphM) (dt : ℚ)
    (tm : TrafficManager) (h : TMWF tm) :
    TMWF (fm.update_robots g dt tm).2.1 := by
  unfold FleetManager.update_robots
  suffices hgen : ∀ (robots : Dict RobotId Robot)
      (acc : Dict RobotId Robot × TrafficManager × Dict RobotId UpdateInfo),
      TMWF acc.2.1 →
      TMWF (robots.foldl
        (fun acc kv =>
          let res := update_one g dt acc.2.1 kv.1 kv.2
          (acc.1 ++ [(kv.1, res.2.1)], res.1, dinsert acc.2.2 kv.1 res.2.2))
        acc).2.1 by
    exact hgen fm.robots ([], tm, []) h
  intro robots
  induction robots with
  | nil => intro acc hacc; exact hacc
  | cons kv rest ih =>
      intro acc hacc
      exact ih _ (update_one_wf g dt acc.2.1 kv.1 kv.2 hacc)

lemma tmstep_wf {tm tm' : TrafficManager} (h : TMWF tm)
    (hstep : TMStep tm tm') : TMWF tm' := by
  cases hstep with
  | register rid s e => exact register_lane_usage_wf tm rid s e h
  | release rid s e => exact release_lane_wf tm rid s e h
  | reset => exact reset_wf tm
  | tick fm g dt => exact update_robots_wf fm g dt tm h

lemma tmreach_wf {tm : TrafficManager} (h : TMReach tm) : TMWF tm := by
  induction h with
  | init => exact init_wf
  | step _ hstep ih => exact tmstep_wf ih hstep

/-! ### Robot-update characterisations -/

lemma movingCore_battery (r : Robot) (nv : Nat) (dt : ℚ)
    (vpos : Nat → ℚ × ℚ) (occ : Dict (Nat × Nat) RobotId) :
    (Robot.movingCore r nv dt vpos occ).1.battery = r.battery := by
  unfold Robot.movingCore
  split_ifs <;> try rfl
  rcases hp : r.path.tail with _ | ⟨p0, t⟩ <;> simp [hp] <;> split_ifs <;> rfl

/-- The battery after one `Robot.update`, in every state: the drain
applies first in every state, the charge rate only in CHARGING. -/
lemma update_battery (r : Robot) (dt : ℚ) (vpos : Nat → ℚ × ℚ)
    (occ : Dict (Nat × Nat) RobotId) :
    ((r.update dt vpos occ).1).battery =
      if r.state = .charging then
        min 100 (max 0 (r.battery - 1/100 * dt) + 1/10 * dt)
      else max 0 (r.battery - 1/100 * dt) := by
  unfold Robot.update
  cases hs : r.state <;> simp [hs]
  · -- moving
    rcases hn : r.next_vertex with _ | n
    · simp only [hn]
      rcases hp : r.path with _ | ⟨a, _ | ⟨b, t⟩⟩ <;> simp [hp, movingCore_battery]
    · rcases n with _ | m
      · simp only [hn]
        rcases hp : r.path with _ | ⟨a, _ | ⟨b, t⟩⟩ <;> simp [hp, movingCore_battery]
      · simp only [hn]
        simp [movingCore_battery]
  · -- waiting
    split_ifs <;> rfl
  · -- charging
    split_ifs <;> rfl

/-- A MOVING tick with a non-falsy next vertex goes straight to the
lane-check/motion part. -/
lemma update_moving_nonzero (r : Robot) (dt : ℚ) (vpos : Nat → ℚ × ℚ)
    (occ : Dict (Nat × Nat) RobotId) (n : Nat)
    (hs : r.state = .moving) (hn : r.next_vertex = some n) (hn0 : n ≠ 0) :
    r.update dt vpos occ =
      Robot.movingCore { r with battery := max 0 (r.battery - 1/100 * dt) }
        n dt vpos occ := by
  obtain ⟨m, rfl⟩ := Nat.exists_eq_succ_of_ne_zero hn0
  unfold Robot.update
  simp [hs, hn]

/-- A MOVING tick with `next_vertex = 0` (falsy) and an empty path
completes without moving. -/
lemma update_moving_falsy_nil (r : Robot) (dt : ℚ) (vpos : Nat → ℚ × ℚ)
    (occ : Dict (Nat × Nat) RobotId)
    (hs : r.state = .moving) (hn : r.next_vertex = some 0)
    (hp : r.path = []) :
    r.update dt vpos occ =
      ({ r with battery := max 0 (r.battery - 1/100 * dt),
                state := .completed },
       { state := .completed, battery := none, position := none,
         current_vertex := none }) := by
  unfold Robot.update
  simp [hs, hn, hp]

/-- A MOVING tick with `next_vertex = 0` (falsy) and a one-element path
consumes it and completes without moving. -/
lemma update_moving_falsy_one (r : Robot) (dt : ℚ) (vpos : Nat → ℚ × ℚ)
    (occ : Dict (Nat × Nat) RobotId) (a : Nat)
    (hs : r.state = .moving) (hn : r.next_vertex = some 0)
    (hp : r.path = [a]) :
    r.update dt vpos occ =
      ({ r with battery := max 0 (r.battery - 1/100 * dt), path := [],
                state := .completed },
       { state := .completed, battery := none, position := none,
         current_vertex := none }) := by
  unfold Robot.update
  simp [hs, hn, hp]

/-- A MOVING tick with `next_vertex = 0` (falsy) and a path of at least
two elements consumes the path head and resets the next vertex to the
new head before the lane check and any motion. -/
lemma update_moving_falsy_cons (r : Robot) (dt : ℚ) (vpos : Nat → ℚ × ℚ)
    (occ : Dict (Nat × Nat) RobotId) (a b : Nat) (t : List Nat)
    (hs : r.state = .moving) (hn : r.next_vertex = some 0)
    (hp : r.path = a :: b :: t) :
    r.update dt vpos occ =
      Robot.movingCore
        { r with battery := max 0 (r.battery - 1/100 * dt),
                 path := b :: t, next_vertex := some b } b dt vpos occ := by
  unfold Robot.update
  simp [hs, hn, hp]

/-- The arrival (snap) branch of the MOVING motion when the path keeps
at least one element after the consumed head: position snaps to the
target vertex, `current_vertex` becomes the target, the path head is
consumed and `next_vertex` is recomputed from the NEW path head. -/
lemma movingCore_arrival_cons (r : Robot) (nv : Nat) (dt : ℚ)
    (vpos : Nat → ℚ × ℚ) (occ : Dict (Nat × Nat) RobotId)
    (p0 : Nat) (t : List Nat)
    (hfree : laneBlocked occ r.current_vertex (some nv) r.id = false)
    (harr : qnorm ((vpos nv).1 - r.position.1, (vpos nv).2 - r.position.2)
              < r.speed * dt)
    (hp : r.path.tail = p0 :: t) :
    Robot.movingCore r nv dt vpos occ =
      ({ r with position := vpos nv, current_vertex := some nv,
                path := p0 :: t, next_vertex := some p0 },
       { state := r.state, battery := none, position := some (vpos nv),
         current_vertex := some nv }) := by
  unfold Robot.movingCore
  simp [hfree, harr, hp]

/-- The arrival branch when the consumed head exhausts the path: the
robot completes. -/
lemma movingCore_arrival_nil (r : Robot) (nv : Nat) (dt : ℚ)
    (vpos : Nat → ℚ × ℚ) (occ : Dict (Nat × Nat) RobotId)
    (hfree : laneBlocked occ r.current_vertex (some nv) r.id = false)
    (harr : qnorm ((vpos nv).1 - r.position.1, (vpos nv).2 - r.position.2)
              < r.speed * dt)
    (hp : r.path.tail = []) :
    Robot.movingCore r nv dt vpos occ =
      ({ r with position := vpos nv, current_vertex := some nv,
                path := [], next_vertex := none, state := .completed },
       { state := .completed, battery := none, position := some (vpos nv),
         current_vertex := some nv }) := by
  unfold Robot.movingCore
  simp [hfree, harr, hp]

/-- Away from arrival, the lane-check/motion part never touches the
path, the next vertex or the current vertex. -/
lemma movingCore_no_arrival_path (r : Robot) (nv : Nat) (dt : ℚ)
    (vpos : Nat → ℚ × ℚ) (occ : Dict (Nat × Nat) RobotId)
    (hfar : ¬ (qnorm ((vpos nv).1 - r.position.1, (vpos nv).2 - r.position.2)
                 < r.speed * dt)) :
    (Robot.movingCore r nv dt vpos occ).1.path = r.path
    ∧ (Robot.movingCore r nv dt vpos occ).1.next_vertex = r.next_vertex
    ∧ (Robot.movingCore r nv dt vpos occ).1.current_vertex
        = r.current_vertex := by
  have hfar' : (qnorm ((vpos nv).1 - r.position.1,
      (vpos nv).2 - r.position.2) < r.speed * dt) = False := eq_false hfar
  unfold Robot.movingCore
  simp only [hfar', if_false]
  split_ifs <;> simp

/-- A successful registration leaves the lane and its source vertex
bound to the registering robot. -/
lemma register_success_lookup (tm : TrafficManager) (rid : RobotId)
    (s e : Nat) (h : (tm.register_lane_usage rid s e).1 = true) :
    dlookup (tm.register_lane_usage rid s e).2.lane_occupancy (s, e)
      = some rid
    ∧ dlookup (tm.register_lane_usage rid s e).2.vertex_occupancy s
        = some rid := by
  unfold TrafficManager.register_lane_usage at *
  cases hl : dlookup tm.lane_occupancy (s, e) with
  | none =>
      simp only [hl]
      exact ⟨dlookup_dinsert_self _ _ _, dlookup_dinsert_self _ _ _⟩
  | some holder =>
      by_cases hh : holder = rid
      · simp only [hl, hh, if_pos rfl]
        exact ⟨dlookup_dinsert_self _ _ _, dlookup_dinsert_self _ _ _⟩
      · rw [hl] at h
        simp [hh] at h

/-- Registering a lane whose lane and source-vertex slots already bind
the same robot changes nothing and succeeds. -/
lemma register_idem (tm1 : TrafficManager) (rid : RobotId) (s e : Nat)
    (hl1 : dlookup tm1.lane_occupancy (s, e) = some rid)
    (hv1 : dlookup tm1.vertex_occupancy s = some rid) :
    tm1.register_lane_usage rid s e = (true, tm1) := by
  unfold TrafficManager.register_lane_usage
  rw [hl1]
  simp only [if_pos rfl]
  rw [dinsert_self_of_dlookup _ _ _ hl1, dinsert_self_of_dlookup _ _ _ hv1]
  simp

/-! ### Concrete scenario inputs -/

/-- Vertex positions on a line: vertex `n` sits at `(n, 0)`. -/
def vposLine : Nat → ℚ × ℚ := fun n => ((n : ℚ), 0)

/-- A registered agent used by several concrete scenarios. -/
def robotX : Robot := Robot.init "x" (0, 0) (some 0)

/-- A one-agent registry. -/
def fmX : FleetManager := FleetManager.init.add_robot robotX

/-- A graph model in which no destination is reachable. -/
def gNoPath : NavGraphM :=
  { pos := vposLine, chargers := [], path := fun _ _ => none }

/-! ### Claim C3 -/

/-- C3: `registerLane(agent, from, to)` succeeds and records the lane
`(from, to)` and the vertex `from` as held by the agent whenever the
lane is unheld or already held by that same agent (and a repeated call
by the holder returns success and leaves the table unchanged); when the
lane is held by a different agent it returns false and leaves both maps
entirely unchanged. -/
theorem register_lane_usage_contract (tm : TrafficManager)
    (rid : RobotId) (s e : Nat) :
    ((dlookup tm.lane_occupancy (s, e) = none ∨
        dlookup tm.lane_occupancy (s, e) = some rid) →
       tm.register_lane_usage rid s e =
         (true, { lane_occupancy := dinsert tm.lane_occupancy (s, e) rid,
                  vertex_occupancy := dinsert tm.vertex_occupancy s rid })
       ∧ dlookup (tm.register_lane_usage rid s e).2.lane_occupancy (s, e)
           = some rid
       ∧ dlookup (tm.register_lane_usage rid s e).2.vertex_occupancy s
           = some rid)
    ∧ ((tm.register_lane_usage rid s e).1 = true →
       (tm.register_lane_usage rid s e).2.register_lane_usage rid s e =
         (true, (tm.register_lane_usage rid s e).2))
    ∧ (∀ o, dlookup tm.lane_occupancy (s, e) = some o → o ≠ rid →
       tm.register_lane_usage rid s e = (false, tm)) := by
  refine ⟨?_, ?_, ?_⟩
  · intro h
    have heq : tm.register_lane_usage rid s e =
        (true, { lane_occupancy := dinsert tm.lane_occupancy (s, e) rid,
                 vertex_occupancy := dinsert tm.vertex_occupancy s rid }) := by
      rcases h with h | h <;> simp [TrafficManager.register_lane_usage, h]
    refine ⟨heq, ?_, ?_⟩ <;> rw [heq] <;> exact dlookup_dinsert_self _ _ _
  · intro h
    obtain ⟨hl1, hv1⟩ := register_success_lookup tm rid s e h
    exact register_idem _ rid s e hl1 hv1
  · intro o ho hne
    simp [TrafficManager.register_lane_usage, ho, hne]

/-- Witness for C3: on the empty table, agent `"r"` registers lane
`(0, 1)`, a repeat registration is a no-op success, and agent `"s"` is
refused without any change. -/
theorem register_lane_usage_contract_witness :
    (TrafficManager.init.register_lane_usage "r" 0 1 =
      (true,
       { lane_occupancy := dinsert TrafficManager.init.lane_occupancy (0, 1) "r",
         vertex_occupancy := dinsert TrafficManager.init.vertex_occupancy 0 "r" })
     ∧ dlookup (TrafficManager.init.register_lane_usage "r" 0 1).2.lane_occupancy
         (0, 1) = some "r"
     ∧ dlookup (TrafficManager.init.register_lane_usage "r" 0 1).2.vertex_occupancy
         0 = some "r")
    ∧ (TrafficManager.init.register_lane_usage "r" 0 1).2.register_lane_usage
        "s" 0 1 =
        (false, (TrafficManager.init.register_lane_usage "r" 0 1).2) := by
  constructor
  · exact (register_lane_usage_contract TrafficManager.init "r" 0 1).1
      (Or.inl rfl)
  · exact (register_lane_usage_contract
      (TrafficManager.init.register_lane_usage "r" 0 1).2 "s" 0 1).2.2
      "r" rfl (by decide)

/-! ### Claim C4 -/

/-- Agent that shares `robotX`'s ID but differs from it. -/
def robotXClash : Robot := Robot.init "x" (0, 0) (some 1)

/-- C4 counterexample: adding a robot whose ID already exists is NOT
rejected — the registry changes and the existing robot is replaced by
the new one. -/
theorem add_robot_duplicate_counterexample :
    dlookup fmX.robots "x" = some robotX
    ∧ robotXClash ≠ robotX
    ∧ (fmX.add_robot robotXClash).robots ≠ fmX.robots
    ∧ dlookup (fmX.add_robot robotXClash).robots "x" = some robotXClash := by
  have hBA : robotXClash ≠ robotX := by
    intro h
    have h2 := congrArg Robot.current_vertex h
    simp [robotX, robotXClash, Robot.init] at h2
  refine ⟨rfl, hBA, ?_, rfl⟩
  intro h
  have hB : dlookup (fmX.add_robot robotXClash).robots "x"
      = some robotXClash := rfl
  have hA : dlookup fmX.robots "x" = some robotX := rfl
  rw [h, hA] at hB
  exact hBA (Option.some_inj.mp hB).symm

/-- C4 amended: `add_robot` inserts unconditionally — after the call
the ID maps to the new robot (replacing any existing robot with that
ID), every other ID's binding is untouched, and the task records are
untouched. -/
theorem add_robot_overwrites (fm : FleetManager) (r : Robot) :
    dlookup (fm.add_robot r).robots r.id = some r
    ∧ (∀ k, k ≠ r.id → dlookup (fm.add_robot r).robots k
        = dlookup fm.robots k)
    ∧ (fm.add_robot r).tasks = fm.tasks :=
  ⟨dlookup_dinsert_self _ _ _,
   fun _ hk => dlookup_dinsert_ne _ _ _ _ hk, rfl⟩

/-- Witness for the amended C4 at a concrete registry. -/
theorem add_robot_overwrites_witness :
    dlookup (fmX.add_robot robotXClash).robots "x" = some robotXClash
    ∧ dlookup (fmX.add_robot robotXClash).robots "y"
        = dlookup fmX.robots "y" := by
  have h := add_robot_overwrites fmX robotXClash
  exact ⟨h.1, h.2.1 "y" (by decide)⟩

/-! ### Claim C6 -/

/-- C6: `assign_task` returns false and leaves the whole fleet state
(registry, robot fields and task records) unchanged both when the
agent ID is unknown and when the path query finds no path from the
agent's current vertex to the destination. -/
theorem assign_task_failures (fm : FleetManager) (g : NavGraphM)
    (rid : RobotId) (dest : Nat) (now : ℚ) :
    (dlookup fm.robots rid = none →
       fm.assign_task g rid dest now = some (false, fm))
    ∧ (∀ r cv, dlookup fm.robots rid = some r →
       r.current_vertex = some cv → cv ≠ dest →
       g.path cv dest = none →
       fm.assign_task g rid dest now = some (false, fm)) := by
  constructor
  · intro h
    simp [FleetManager.assign_task, h]
  · intro r cv hr hcv hne hpath
    simp [FleetManager.assign_task, hr, hcv, hne, hpath]

/-- Witness for C6: an unknown ID and an unreachable destination both
fail and change nothing. -/
theorem assign_task_failures_witness :
    fmX.assign_task gNoPath "y" 3 0 = some (false, fmX)
    ∧ fmX.assign_task gNoPath "x" 3 0 = some (false, fmX) := by
  constructor
  · exact (assign_task_failures fmX gNoPath "y" 3 0).1 rfl
  · exact (assign_task_failures fmX gNoPath "x" 3 0).2 robotX 0 rfl rfl
      (by decide) rfl

/-! ### Claim C7 -/

/-- C7: for any registered agent — in whatever state task assignment
and any number of ticks have left it — `cancel_task` returns true,
forces the agent to IDLE with empty path, null destination and null
next vertex, and removes its task record. -/
theorem cancel_task_resets (fm : FleetManager) (rid : RobotId) (r : Robot)
    (h : dlookup fm.robots rid = some r) :
    (fm.cancel_task rid).1 = true
    ∧ dlookup (fm.cancel_task rid).2.robots rid = some r.cancel_task
    ∧ r.cancel_task.state = .idle
    ∧ r.cancel_task.path = []
    ∧ r.cancel_task.destination = none
    ∧ r.cancel_task.next_vertex = none
    ∧ dlookup (fm.cancel_task rid).2.tasks rid = none := by
  have hc : fm.cancel_task rid =
      (true, { robots := dinsert fm.robots rid r.cancel_task,
               tasks := derase fm.tasks rid }) := by
    simp [FleetManager.cancel_task, h]
  rw [hc]
  exact ⟨rfl, dlookup_dinsert_self _ _ _, rfl, rfl, rfl, rfl,
         dlookup_derase_self _ _⟩

/-- Witness for C7 at a concrete registry. -/
theorem cancel_task_resets_witness :
    (fmX.cancel_task "x").1 = true
    ∧ dlookup (fmX.cancel_task "x").2.robots "x" = some robotX.cancel_task
    ∧ robotX.cancel_task.state = .idle
    ∧ robotX.cancel_task.path = []
    ∧ robotX.cancel_task.destination = none
    ∧ robotX.cancel_task.next_vertex = none
    ∧ dlookup (fmX.cancel_task "x").2.tasks "x" = none :=
  cancel_task_resets fmX "x" robotX rfl

/-! ### Claim C9 -/

/-- C9: `assign_task` on a CHARGING or WAITING agent with a reachable
destination distinct from its current vertex succeeds, sets the state
to MOVING unconditionally (abandoning an in-progress charge with the
battery still below 100 — the battery is not touched), and releases no
lane or vertex: the traffic manager is not consulted at all, so the
occupancy tables are exactly what they were. -/
theorem assign_task_preempts_charging (s : System) (g : NavGraphM)
    (rid : RobotId) (dest : Nat) (now : ℚ) (r : Robot) (cv a b : Nat)
    (p : List Nat)
    (hr : dlookup s.fm.robots rid = some r)
    (_hst : r.state = .charging ∨ r.state = .waiting)
    (hcv : r.current_vertex = some cv)
    (hne : cv ≠ dest)
    (hpath : g.path cv dest = some (a :: b :: p))
    (hbat : r.battery < 100) :
    s.assign_task g rid dest now =
      some (true,
        { fm := { robots := dinsert s.fm.robots rid
                    (r.set_destination dest (a :: b :: p)),
                  tasks := dinsert s.fm.tasks rid
                    { destination := dest, path := a :: b :: p,
                      start_time := now } },
          tm := s.tm })
    ∧ (r.set_destination dest (a :: b :: p)).state = .moving
    ∧ (r.set_destination dest (a :: b :: p)).battery = r.battery
    ∧ (r.set_destination dest (a :: b :: p)).battery < 100 := by
  refine ⟨?_, rfl, rfl, hbat⟩
  simp [System.assign_task, FleetManager.assign_task, hr, hcv, hne, hpath]

/-- A charging agent with battery 50, holding lane `(0, 1)`. -/
def rCharge : Robot :=
  { Robot.init "c" (0, 0) (some 0) with state := .charging, battery := 50 }

/-- Occupancy state in which `rCharge` holds lane `(0, 1)` and
vertex 0. -/
def tmHold : TrafficManager :=
  (TrafficManager.init.register_lane_usage "c" 0 1).2

/-- System holding `rCharge` and its lane reservation. -/
def sysW : System :=
  { fm := FleetManager.init.add_robot rCharge, tm := tmHold }

/-- Graph model with a single known route `0 → 1 → 3`. -/
def gPath : NavGraphM :=
  { pos := vposLine, chargers := [],
    path := fun a b => if a = 0 ∧ b = 3 then some [0, 1, 3] else none }

/-- Witness for C9: assigning vertex 3 to the charging agent succeeds,
yields state MOVING with battery still 50, and the occupancy tables
keep the previously held lane and vertex. -/
theorem assign_task_preempts_charging_witness :
    sysW.assign_task gPath "c" 3 0 =
      some (true,
        { fm := { robots := dinsert sysW.fm.robots "c"
                    (rCharge.set_destination 3 [0, 1, 3]),
                  tasks := dinsert sysW.fm.tasks "c"
                    { destination := 3, path := [0, 1, 3],
                      start_time := 0 } },
          tm := sysW.tm })
    ∧ (rCharge.set_destination 3 [0, 1, 3]).state = .moving
    ∧ (rCharge.set_destination 3 [0, 1, 3]).battery = rCharge.battery
    ∧ (rCharge.set_destination 3 [0, 1, 3]).battery < 100 :=
  assign_task_preempts_charging sysW gPath "c" 3 0 rCharge 0 0 1 [3]
    rfl (Or.inl rfl) rfl (by decide) rfl (by decide)

/-! ### Exact values of the modelled Euclidean norm -/

lemma ratSqrt_natCast_sq (n : Nat) : ratSqrt ((n * n : Nat) : ℚ) = n := by
  unfold ratSqrt
  rw [Rat.num_natCast, Rat.den_natCast]
  rw [Int.toNat_natCast]
  rw [Nat.sqrt_eq, Nat.sqrt_one]
  simp

/-- `qnorm` is the true Euclidean norm on vectors whose squared norm
is a perfect square. -/
lemma qnorm_val (x y : ℚ) (n : Nat)
    (h : x * x + y * y = ((n * n : Nat) : ℚ)) : qnorm (x, y) = n := by
  unfold qnorm
  rw [h]
  exact ratSqrt_natCast_sq n

/-! ### Claim C1 -/

/-- Occupancy state reached from the empty table by two registrations
by the same agent (the agent never released lane `(0, 1)`). -/
def tmTwoLanes : TrafficManager :=
  ((TrafficManager.init.register_lane_usage "r" 0 1).2.register_lane_usage
    "r" 1 2).2

lemma tmTwoLanes_reach : TMReach tmTwoLanes :=
  TMReach.step
    (TMReach.step TMReach.init
      (TMStep.register TrafficManager.init "r" 0 1))
    (TMStep.register (TrafficManager.init.register_lane_usage "r" 0 1).2
      "r" 1 2)

/-- C1 counterexample: in a state reachable by the dispatcher's
operations, agent `"r"` holds TWO distinct lane entries and TWO
distinct vertex entries at once — `register_lane_usage` never releases
the previous hold, so "each agent holds at most one lane entry and at
most one vertex entry" is false. -/
theorem occupancy_multi_hold_counterexample :
    TMReach tmTwoLanes
    ∧ dlookup tmTwoLanes.lane_occupancy (0, 1) = some "r"
    ∧ dlookup tmTwoLanes.lane_occupancy (1, 2) = some "r"
    ∧ ((0, 1) : Nat × Nat) ≠ (1, 2)
    ∧ dlookup tmTwoLanes.vertex_occupancy 0 = some "r"
    ∧ dlookup tmTwoLanes.vertex_occupancy 1 = some "r"
    ∧ (0 : Nat) ≠ 1 :=
  ⟨tmTwoLanes_reach, rfl, rfl, by decide, rfl, rfl, by decide⟩

/-- C1 amended: in every occupancy state reachable by the operations
the dispatcher performs (`register_lane_usage`, `release_lane`,
`reset`, and the per-tick re-registration inside `update_robots`), the
lane and vertex tables have unique keys, so no lane or vertex key maps
to more than one agent; an agent, however, may hold several lane and
vertex entries at once (see the counterexample). -/
theorem occupancy_key_uniqueness (tm : TrafficManager) (h : TMReach tm) :
    (dwf tm.lane_occupancy ∧ dwf tm.vertex_occupancy)
    ∧ (∀ l a b, (l, a) ∈ tm.lane_occupancy →
        (l, b) ∈ tm.lane_occupancy → a = b)
    ∧ (∀ v a b, (v, a) ∈ tm.vertex_occupancy →
        (v, b) ∈ tm.vertex_occupancy → a = b) := by
  have hwf := tmreach_wf h
  exact ⟨hwf,
    fun l a b ha hb => dwf_mem_unique _ hwf.1 l a b ha hb,
    fun v a b ha hb => dwf_mem_unique _ hwf.2 v a b ha hb⟩

/-- Witness for the amended C1 at the reachable two-lane state. -/
theorem occupancy_key_uniqueness_witness :
    dwf tmTwoLanes.lane_occupancy ∧ dwf tmTwoLanes.vertex_occupancy :=
  (occupancy_key_uniqueness tmTwoLanes tmTwoLanes_reach).1

/-! ### Claim C2 -/

/-- A moving agent one step from vertex 2, whose destination is the
distant vertex 5, with battery 40. -/
def rArrive : Robot :=
  { id := "a", position := vposLine 2, current_vertex := some 1,
    destination := some 5, path := [1, 2], next_vertex := some 2,
    state := .moving, speed := 1/20, battery := 40 }

/-- Graph model in which vertex 2 is a charger. -/
def gCharge : NavGraphM :=
  { pos := vposLine, chargers := [2], path := fun _ _ => none }

/-- Fleet holding only `rArrive`. -/
def fmArrive : FleetManager := { robots := [("a", rArrive)], tasks := [] }

/-- The state of `rArrive` after the tick that snaps it onto
vertex 2. -/
def rArrived : Robot :=
  { id := "a", position := vposLine 2, current_vertex := some 2,
    destination := some 5, path := [2], next_vertex := some 2,
    state := .moving, speed := 1/20,
    battery := max 0 (40 - 1/100 * 1) }

lemma rArrive_update :
    rArrive.update 1 gCharge.pos TrafficManager.init.lane_occupancy
      = (rArrived,
         { state := .moving, battery := none,
           position := some (vposLine 2), current_vertex := some 2 }) := by
  have hfree : laneBlocked TrafficManager.init.lane_occupancy
      (some 1) (some 2) "a" = false := rfl
  have h0 : qnorm ((gCharge.pos 2).1 - (vposLine 2).1,
      (gCharge.pos 2).2 - (vposLine 2).2) = 0 := by
    apply qnorm_val
    norm_num [gCharge, vposLine]
  have harr : qnorm ((gCharge.pos 2).1 - (vposLine 2).1,
      (gCharge.pos 2).2 - (vposLine 2).2) < 1/20 * 1 := by
    rw [h0]; norm_num
  rw [update_moving_nonzero rArrive 1 gCharge.pos
      TrafficManager.init.lane_occupancy 2 rfl rfl (by decide)]
  rw [movingCore_arrival_cons
      { rArrive with battery := max 0 (rArrive.battery - 1/100 * 1) }
      2 1 gCharge.pos TrafficManager.init.lane_occupancy 2 [] hfree harr
      rfl]
  rfl

/-- C2 counterexample: on a dispatcher tick the agent's current vertex
changes to charger vertex 2 with battery below 50, but vertex 2 is not
its destination — and the agent is NOT put into CHARGING (the charging
check in `update_robots` is nested inside the destination-reached
check). -/
theorem tick_no_charge_counterexample :
    dlookup (fmArrive.update_robots gCharge 1 TrafficManager.init).1.robots
      "a" = some rArrived
    ∧ rArrived.current_vertex = some 2
    ∧ rArrive.current_vertex = some 1
    ∧ (2 : Nat) ∈ gCharge.chargers
    ∧ rArrived.battery < 50
    ∧ rArrived.destination = some 5
    ∧ rArrived.destination ≠ some 2
    ∧ rArrived.state = .moving
    ∧ rArrived.state ≠ .charging := by
  refine ⟨?_, rfl, rfl, by simp [gCharge], ?_, rfl, by decide, rfl,
    by decide⟩
  · simp [FleetManager.update_robots, fmArrive, update_one, rArrive_update,
          chargeCheck, registerCurrentLane, rArrived, dlookup]
  · show max (0:ℚ) (40 - 1/100 * 1) < 50
    rw [max_eq_right (by norm_num : (0:ℚ) ≤ 40 - 1/100 * 1)]
    norm_num

/-- C2 amended: on a dispatcher tick, an agent whose current vertex
changed to `v` is put into CHARGING exactly when `v` is ALSO its
destination, a charger, and the battery is below 50; when `v` is not
its destination the loop body leaves the updated robot untouched —
no `start_charging` call happens. -/
theorem tick_charges_only_at_destination (g : NavGraphM) (dt : ℚ)
    (tm : TrafficManager) (k : RobotId) (r : Robot) (v : Nat)
    (hv : (r.update dt g.pos tm.lane_occupancy).2.current_vertex = some v)
    (hpre : some v ≠ r.current_vertex) :
    ((r.update dt g.pos tm.lane_occupancy).1.destination = some v →
       v ∈ g.chargers →
       (r.update dt g.pos tm.lane_occupancy).1.battery < 50 →
       (update_one g dt tm k r).2.1.state = .charging)
    ∧ ((r.update dt g.pos tm.lane_occupancy).1.destination ≠ some v →
       (update_one g dt tm k r).2.1
         = (r.update dt g.pos tm.lane_occupancy).1) := by
  constructor
  · intro hdest hch hbat
    simp [update_one, chargeCheck, hv, hpre, hdest, hch, hbat,
          Robot.start_charging]
  · intro hdest
    simp [update_one, chargeCheck, hv, hpre, hdest]

/-- Like `rArrive`, but vertex 2 IS the destination. -/
def rArriveB : Robot := { rArrive with destination := some 2 }

/-- The state of `rArriveB` after the snap tick. -/
def rArrivedB : Robot := { rArrived with destination := some 2 }

lemma rArriveB_update :
    rArriveB.update 1 gCharge.pos TrafficManager.init.lane_occupancy
      = (rArrivedB,
         { state := .moving, battery := none,
           position := some (vposLine 2), current_vertex := some 2 }) := by
  have hfree : laneBlocked TrafficManager.init.lane_occupancy
      (some 1) (some 2) "a" = false := rfl
  have h0 : qnorm ((gCharge.pos 2).1 - (vposLine 2).1,
      (gCharge.pos 2).2 - (vposLine 2).2) = 0 := by
    apply qnorm_val
    norm_num [gCharge, vposLine]
  have harr : qnorm ((gCharge.pos 2).1 - (vposLine 2).1,
      (gCharge.pos 2).2 - (vposLine 2).2) < 1/20 * 1 := by
    rw [h0]; norm_num
  rw [update_moving_nonzero rArriveB 1 gCharge.pos
      TrafficManager.init.lane_occupancy 2 rfl rfl (by decide)]
  rw [movingCore_arrival_cons
      { rArriveB with battery := max 0 (rArriveB.battery - 1/100 * 1) }
      2 1 gCharge.pos TrafficManager.init.lane_occupancy 2 [] hfree harr
      rfl]
  rfl

/-- Witness for the amended C2: when charger vertex 2 is the agent's
destination and the battery is below 50, the loop body does put the
agent into CHARGING. -/
theorem tick_charges_only_at_destination_witness :
    (update_one gCharge 1 TrafficManager.init "a" rArriveB).2.1.state
      = .charging := by
  have h := tick_charges_only_at_destination gCharge 1 TrafficManager.init
    "a" rArriveB 2 (by rw [rArriveB_update]) (by decide)
  refine h.1 (by rw [rArriveB_update]; rfl) (by simp [gCharge]) ?_
  rw [rArriveB_update]
  show max (0:ℚ) (40 - 1/100 * 1) < 50
  rw [max_eq_right (by norm_num : (0:ℚ) ≤ 40 - 1/100 * 1)]
  norm_num

/-! ### Claim C5 -/

/-- A moving agent about to snap onto vertex 1, mid-way through path
`[0, 1, 2]`. -/
def rSnap : Robot :=
  { id := "s", position := vposLine 1, current_vertex := some 0,
    destination := some 2, path := [0, 1, 2], next_vertex := some 1,
    state := .moving, speed := 1/20, battery := 100 }

/-- `rSnap` after the snap tick: path `[1, 2]` but next vertex 1 — the
vertex just reached, not the vertex after it. -/
def rSnapped : Robot :=
  { id := "s", position := vposLine 1, current_vertex := some 1,
    destination := some 2, path := [1, 2], next_vertex := some 1,
    state := .moving, speed := 1/20,
    battery := max 0 (100 - 1/100 * 1) }

lemma rSnap_update : (rSnap.update 1 vposLine []).1 = rSnapped := by
  have hfree : laneBlocked [] (some 0) (some 1) "s" = false := rfl
  have h0 : qnorm ((vposLine 1).1 - (vposLine 1).1,
      (vposLine 1).2 - (vposLine 1).2) = 0 := by
    apply qnorm_val
    norm_num [vposLine]
  have harr : qnorm ((vposLine 1).1 - (vposLine 1).1,
      (vposLine 1).2 - (vposLine 1).2) < 1/20 * 1 := by
    rw [h0]; norm_num
  rw [update_moving_nonzero rSnap 1 vposLine [] 1 rfl rfl (by decide)]
  rw [movingCore_arrival_cons
      { rSnap with battery := max 0 (rSnap.battery - 1/100 * 1) }
      1 1 vposLine [] 1 [2] hfree harr rfl]
  rfl

/-- C5 counterexample: after the snap tick the path still has two
elements and its first element equals the current vertex, but the next
vertex equals the FIRST element of the path (the vertex just reached),
not the second — refuting "next vertex equals the second element of
the path when the path has at least two elements". -/
theorem snap_next_is_old_head_counterexample :
    (rSnap.update 1 vposLine []).1 = rSnapped
    ∧ rSnapped.current_vertex = some 1
    ∧ rSnapped.path = [1, 2]
    ∧ rSnapped.path.get? 1 = some 2
    ∧ rSnapped.next_vertex = some 1
    ∧ rSnapped.next_vertex ≠ rSnapped.path.get? 1 :=
  ⟨rSnap_update, rfl, rfl, rfl, rfl, by decide⟩

/-- C5 amended: when a MOVING tick snaps the agent onto its (non-falsy)
next vertex through a free lane, the old path head is consumed and the
next vertex is recomputed as the FIRST element of the remaining path —
for a path of the code's own form `[current, next, after, …]` that is
the vertex just reached, not the vertex after it; when the remaining
path is empty, next vertex becomes null and the state COMPLETED. -/
theorem snap_recomputes_next_from_new_head (r : Robot) (dt : ℚ)
    (vpos : Nat → ℚ × ℚ) (occ : Dict (Nat × Nat) RobotId) (n p0 : Nat)
    (rest : List Nat)
    (hs : r.state = .moving) (hn : r.next_vertex = some n) (hn0 : n ≠ 0)
    (hfree : laneBlocked occ r.current_vertex (some n) r.id = false)
    (harr : qnorm ((vpos n).1 - r.position.1, (vpos n).2 - r.position.2)
              < r.speed * dt)
    (hp : r.path = p0 :: rest) :
    (∀ q t, rest = q :: t →
       (r.update dt vpos occ).1 =
         { r with battery := max 0 (r.battery - 1/100 * dt),
                  position := vpos n, current_vertex := some n,
                  path := q :: t, next_vertex := some q })
    ∧ (rest = [] →
       (r.update dt vpos occ).1 =
         { r with battery := max 0 (r.battery - 1/100 * dt),
                  position := vpos n, current_vertex := some n,
                  path := [], next_vertex := none,
                  state := .completed }) := by
  rw [update_moving_nonzero r dt vpos occ n hs hn hn0]
  constructor
  · intro q t hrest
    rw [movingCore_arrival_cons
        { r with battery := max 0 (r.battery - 1/100 * dt) }
        n dt vpos occ q t hfree harr (by simp [hp, hrest])]
  · intro hrest
    rw [movingCore_arrival_nil
        { r with battery := max 0 (r.battery - 1/100 * dt) }
        n dt vpos occ hfree harr (by simp [hp, hrest])]

/-- Witness for the amended C5 at the concrete snap scenario. -/
theorem snap_recomputes_next_witness :
    (rSnap.update 1 vposLine []).1 =
      { rSnap with battery := max 0 (rSnap.battery - 1/100 * 1),
                   position := vposLine 1, current_vertex := some 1,
                   path := [1, 2], next_vertex := some 1 } := by
  have h0 : qnorm ((vposLine 1).1 - (vposLine 1).1,
      (vposLine 1).2 - (vposLine 1).2) = 0 := by
    apply qnorm_val
    norm_num [vposLine]
  have harr : qnorm ((vposLine 1).1 - (vposLine 1).1,
      (vposLine 1).2 - (vposLine 1).2) < 1/20 * 1 := by
    rw [h0]; norm_num
  exact (snap_recomputes_next_from_new_head rSnap 1 vposLine [] 1 0 [1, 2]
    rfl rfl (by decide) rfl harr rfl).1 1 [2] rfl

/-! ### Claim C8 -/

/-- C8: on every tick with `dt > 0` the battery drains by the fixed
rate `dt/100` in every state except CHARGING (clamped at 0), while in
CHARGING it changes by the fixed net rate `+9·dt/100` (drain plus
charge, clamped to 100), and the post-tick battery always lies in
`[0, 100]`.  The strict decrease/increase conjuncts hold whenever the
clamps are not hit. -/
theorem battery_tick_bounds (r : Robot) (dt : ℚ) (vpos : Nat → ℚ × ℚ)
    (occ : Dict (Nat × Nat) RobotId)
    (hdt : 0 < dt) (_hb0 : 0 ≤ r.battery) (hb1 : r.battery ≤ 100) :
    (0 ≤ ((r.update dt vpos occ).1).battery
      ∧ ((r.update dt vpos occ).1).battery ≤ 100)
    ∧ (r.state ≠ .charging →
        ((r.update dt vpos occ).1).battery
          = max 0 (r.battery - 1/100 * dt))
    ∧ (r.state ≠ .charging → 1/100 * dt ≤ r.battery →
        ((r.update dt vpos occ).1).battery = r.battery - 1/100 * dt
        ∧ ((r.update dt vpos occ).1).battery < r.battery)
    ∧ (r.state = .charging →
        ((r.update dt vpos occ).1).battery
          = min 100 (max 0 (r.battery - 1/100 * dt) + 1/10 * dt))
    ∧ (r.state = .charging → 1/100 * dt ≤ r.battery →
        r.battery + 9/100 * dt ≤ 100 →
        ((r.update dt vpos occ).1).battery = r.battery + 9/100 * dt
        ∧ r.battery < ((r.update dt vpos occ).1).battery) := by
  have hb := update_battery r dt vpos occ
  refine ⟨?_, ?_, ?_, ?_, ?_⟩
  · by_cases hc : r.state = .charging
    · rw [hb, if_pos hc]
      constructor
      · have h1 : (0:ℚ) ≤ max 0 (r.battery - 1/100 * dt) + 1/10 * dt := by
          have h2 := le_max_left (0:ℚ) (r.battery - 1/100 * dt)
          linarith
        exact le_min (by norm_num) h1
      · exact min_le_left _ _
    · rw [hb, if_neg hc]
      refine ⟨le_max_left _ _, max_le (by norm_num) (by linarith)⟩
  · intro hc
    rw [hb, if_neg hc]
  · intro hc hle
    rw [hb, if_neg hc, max_eq_right (by linarith)]
    exact ⟨rfl, by linarith⟩
  · intro hc
    rw [hb, if_pos hc]
  · intro hc hle h100
    rw [hb, if_pos hc, max_eq_right (by linarith)]
    have heq : r.battery - 1/100 * dt + 1/10 * dt
        = r.battery + 9/100 * dt := by ring
    rw [heq, min_eq_right h100]
    exact ⟨rfl, by linarith⟩

/-- Witness for C8: one tick of the idle full-battery agent drains
exactly `1/100` and stays within `[0, 100]`. -/
theorem battery_tick_bounds_witness :
    (0 ≤ ((robotX.update 1 vposLine []).1).battery
      ∧ ((robotX.update 1 vposLine []).1).battery ≤ 100)
    ∧ ((robotX.update 1 vposLine []).1).battery = robotX.battery - 1/100 * 1
    ∧ ((robotX.update 1 vposLine []).1).battery < robotX.battery := by
  have h := battery_tick_bounds robotX 1 vposLine [] (by decide) (by decide)
    (by decide)
  have h3 := h.2.2.1 (by decide) (by norm_num [robotX, Robot.init])
  exact ⟨h.1, h3.1, h3.2⟩

/-! ### Claim C10 -/

/-- A moving agent whose next vertex is the (falsy) vertex 0. -/
def rzero : Robot :=
  { id := "z", position := vposLine 3, current_vertex := some 3,
    destination := some 7, path := [3, 0, 7], next_vertex := some 0,
    state := .moving, speed := 1/20, battery := 100 }

/-- Identical to `rzero` except the next vertex is the nonzero
vertex 5. -/
def rfive : Robot := { rzero with next_vertex := some 5 }

/-- C10: in MOVING, `not self.next_vertex` is Python truthiness, so
next vertex 0 is treated like null: the tick consumes the path head
(or completes on an exhausted path) BEFORE the lane check and any
movement, and two agents identical except for next vertex 0 versus a
nonzero next vertex behave differently at the same position — the
zero-next agent's path loses its head, the other's path is intact. -/
theorem next_vertex_zero_is_falsy (r : Robot) (dt : ℚ)
    (vpos : Nat → ℚ × ℚ) (occ : Dict (Nat × Nat) RobotId)
    (hs : r.state = .moving) (hn : r.next_vertex = some 0) :
    (r.path = [] → (r.update dt vpos occ).1.state = .completed
       ∧ (r.update dt vpos occ).1.position = r.position)
    ∧ (∀ a, r.path = [a] → (r.update dt vpos occ).1.state = .completed
       ∧ (r.update dt vpos occ).1.path = []
       ∧ (r.update dt vpos occ).1.position = r.position)
    ∧ (∀ a b t, r.path = a :: b :: t →
       r.update dt vpos occ =
         Robot.movingCore
           { r with battery := max 0 (r.battery - 1/100 * dt),
                    path := b :: t, next_vertex := some b } b dt vpos occ)
    ∧ ((rzero.update 1 vposLine []).1.path = [0, 7]
       ∧ (rfive.update 1 vposLine []).1.path = [3, 0, 7]
       ∧ rfive = { rzero with next_vertex := some 5 }
       ∧ (rzero.update 1 vposLine []).1.path
           ≠ (rfive.update 1 vposLine []).1.path) := by
  have hz : (rzero.update 1 vposLine []).1.path = [0, 7] := by
    rw [update_moving_falsy_cons rzero 1 vposLine [] 3 0 [7] rfl rfl rfl]
    have hfar : ¬ (qnorm ((vposLine 0).1 - (vposLine 3).1,
        (vposLine 0).2 - (vposLine 3).2) < (1/20 : ℚ) * 1) := by
      have h3 : qnorm ((vposLine 0).1 - (vposLine 3).1,
          (vposLine 0).2 - (vposLine 3).2) = 3 := by
        apply qnorm_val
        norm_num [vposLine]
      rw [h3]
      norm_num
    have hres := movingCore_no_arrival_path
      { rzero with battery := max 0 (rzero.battery - 1/100 * 1),
                   path := 0 :: [7], next_vertex := some 0 }
      0 1 vposLine [] hfar
    rw [hres.1]
  have hf : (rfive.update 1 vposLine []).1.path = [3, 0, 7] := by
    rw [update_moving_nonzero rfive 1 vposLine [] 5 rfl rfl (by decide)]
    have hfar : ¬ (qnorm ((vposLine 5).1 - (vposLine 3).1,
        (vposLine 5).2 - (vposLine 3).2) < (1/20 : ℚ) * 1) := by
      have h2 : qnorm ((vposLine 5).1 - (vposLine 3).1,
          (vposLine 5).2 - (vposLine 3).2) = 2 := by
        apply qnorm_val
        norm_num [vposLine]
      rw [h2]
      norm_num
    have hres := movingCore_no_arrival_path
      { rfive with battery := max 0 (rfive.battery - 1/100 * 1) }
      5 1 vposLine [] hfar
    rw [hres.1]
    simp [rfive, rzero]
  refine ⟨?_, ?_, ?_, hz, hf, rfl, ?_⟩
  · intro hp
    rw [update_moving_falsy_nil r dt vpos occ hs hn hp]
    exact ⟨rfl, rfl⟩
  · intro a hp
    rw [update_moving_falsy_one r dt vpos occ a hs hn hp]
    exact ⟨rfl, rfl, rfl⟩
  · intro a b t hp
    exact update_moving_falsy_cons r dt vpos occ a b t hs hn hp
  · rw [hz, hf]
    decide

/-- Witness for C10: `rzero`'s tick consumes the path head before any
movement. -/
theorem next_vertex_zero_is_falsy_witness :
    rzero.update 1 vposLine [] =
      Robot.movingCore
        { rzero with battery := max 0 (rzero.battery - 1/100 * 1),
                     path := [0, 7], next_vertex := some 0 }
        0 1 vposLine [] :=
  (next_vertex_zero_is_falsy rzero 1 vposLine [] rfl rfl).2.2.1 3 0 [7] rfl

end FleetSim
